import Mathlib

/-!
# Vst3HostDemo: plugin hosting engine

A shallow embedding of `plugin/vst3/Vst3Utils.hpp`, the declarations of
`plugin/vst3/Vst3PluginImpl.hpp` and the load/unload operations of `App.cpp`,
followed by the properties established about them.

Conventions of the embedding:
* a nullable raw or smart pointer is an `Option` of a handle (`none` is `nullptr`);
* `Steinberg::tresult` (a 32-bit signed integer) is an `Int`; the code only compares
  and stores it, so no arithmetic wraps;
* a failed `assert` makes the operation return `none`;
* a C++ exception is the `thrown` outcome of an operation, next to the state that the
  operation had reached when it was thrown.
-/

namespace Vst3HostDemo

/-! ## Vst3Utils.hpp -/

/-- Status code of the plugin interface, `Steinberg::tresult`. -/
abbrev tresult := Int

/-- Handle of an interface object behind a non-null pointer. -/
abbrev Handle := Nat

/-- Interface identifier, `Steinberg::FIDString`. -/
abbrev FIDString := String

/-- Class identifier, `Steinberg::FUID`. -/
abbrev FUID := String

/-- The two status codes the utilities compare against and produce. They are declared
by the plugin SDK (`pluginterfaces/base/funknown.h`), which the repository only
includes, so the embedding takes them as a parameter. -/
structure ResultCodes where
  kResultTrue : tresult
  kNoInterface : tresult
deriving DecidableEq, Repr

/-- The values the SDK header gives the two codes on the non-COM build:
`kNoInterface = -1`, `kResultOk = kResultTrue = 0`. (The COM build keeps
`kResultTrue = 0` and uses `0x80004002` for `kNoInterface`.) -/
def sdkCodes : ResultCodes := ⟨0, -1⟩

/-- `vstma_unique_ptr<T>`: an owning pointer, possibly null. -/
abbrev vstma_unique_ptr := Option Handle

/-- `to_unique(p)`: wraps the raw pointer, null or not. -/
def to_unique (p : Option Handle) : vstma_unique_ptr := p

/-- `Either<Left, Right>`: the class stores BOTH members and a tag. -/
structure Either (Left Right : Type) where
  left_ : Left
  right_ : Right
  is_right_ : Bool
deriving DecidableEq, Repr

namespace Either

variable {Left Right σ : Type}

/-- `Either(Left left)`: `right_` is value-initialised, the tag is `false`. -/
def ofLeft [Inhabited Right] (left : Left) : Either Left Right :=
  { left_ := left, right_ := default, is_right_ := false }

/-- `Either(Right right)`: `left_` is value-initialised, the tag is `true`. -/
def ofRight [Inhabited Left] (right : Right) : Either Left Right :=
  { left_ := default, right_ := right, is_right_ := true }

/-- `is_right()`. -/
def is_right (e : Either Left Right) : Bool := e.is_right_

/-- `left()`: `assert(!is_right()); return left_;` -/
def left (e : Either Left Right) : Option Left :=
  if !e.is_right then some e.left_ else none

/-- `right()`: `assert(is_right()); return right_;` -/
def right (e : Either Left Right) : Option Right :=
  if e.is_right then some e.right_ else none

/-- `visit(f)`: `if(is_right()) { f(right()); } else { f(left()); }`. The callable
accepts either member type; its effect is a transformer of a caller-side state `σ`.
The result is `none` when an accessor assertion fires. -/
def visit (e : Either Left Right) (f : Left ⊕ Right → σ → σ) (s : σ) : Option σ :=
  if e.is_right then
    match e.right with
    | some r => some (f (Sum.inr r) s)
    | none => none
  else
    match e.left with
    | some l => some (f (Sum.inl l) s)
    | none => none

end Either

/-- `maybe_vstma_unique_ptr<To>`, that is `Either<tresult, vstma_unique_ptr<To>>`. -/
abbrev maybe_vstma_unique_ptr := Either tresult vstma_unique_ptr

/-- The object asked for an interface: its `queryInterface(iid, &obtained)` answers with
a status code and the value it leaves in `obtained` (initialised to `nullptr`). -/
structure FUnknown where
  queryInterface : FIDString → tresult × Option Handle

/-- A plugin factory: `createInstance(class_id, iid, &obtained)` answers likewise. -/
structure IPluginFactory where
  createInstance : FUID → FIDString → tresult × Option Handle

/-- `queryInterface_impl<To>(p, iid)`. -/
def queryInterface_impl (c : ResultCodes) (p : Option FUnknown) (iid : FIDString) :
    Option maybe_vstma_unique_ptr :=
  match p with
  | none => none
  | some obj =>
    let res := (obj.queryInterface iid).1
    let obtained := (obj.queryInterface iid).2
    if res = c.kResultTrue ∧ obtained ≠ none then
      some (Either.ofRight (to_unique obtained))
    else
      if res ≠ c.kResultTrue then
        some (Either.ofLeft res)
      else
        some (Either.ofLeft c.kNoInterface)

/-- `createInstance_impl<To>(factory, class_id, iid)`. -/
def createInstance_impl (c : ResultCodes) (factory : Option IPluginFactory)
    (class_id : FUID) (iid : FIDString) : Option maybe_vstma_unique_ptr :=
  match factory with
  | none => none
  | some fac =>
    let res := (fac.createInstance class_id iid).1
    let obtained := (fac.createInstance class_id iid).2
    if res = c.kResultTrue ∧ obtained ≠ none then
      some (Either.ofRight (to_unique obtained))
    else
      some (Either.ofLeft res)

/-! ## Vst3PluginImpl.hpp -/

/-- `Vst3Plugin::Impl::ErrorContext`. -/
inductive ErrorContext where
  | kFactoryError
  | kComponentError
  | kAudioProcessorError
  | kEditControllerError
  | kEditController2Error
deriving DecidableEq, Repr

/-- `Vst3Plugin::Impl::Status`. -/
inductive Status where
  | kInvalid
  | kCreated
  | kInitialized
  | kSetupDone
  | kActivated
  | kProcessing
deriving DecidableEq, Repr

/-- `Vst3Plugin::Impl::Error`: the two private members, in declaration order. -/
structure Error where
  error_code_ : tresult
  error_context_ : ErrorContext
deriving DecidableEq, Repr

namespace Error

/-- `Error(ErrorContext error_context, tresult error_code)`. -/
def mk_Error (error_context : ErrorContext) (error_code : tresult) : Error :=
  { error_code_ := error_code, error_context_ := error_context }

/-- `context()`. -/
def context (e : Error) : ErrorContext := e.error_context_

/-- `code()`. -/
def code (e : Error) : tresult := e.error_code_

end Error

/-- `Vst::BusDirection`. -/
inductive BusDirection where
  | kInput
  | kOutput
deriving DecidableEq, Repr

/-- Bus category of the data model: main or auxiliary. -/
inductive BusType where
  | kMain
  | kAux
deriving DecidableEq, Repr

/-- Modelled from the spec: the bus descriptor `BusInfo` is declared in
`Vst3Plugin.hpp`, which is not among the sources. Fields follow the data model:
direction, channel count, current channel-layout tag, active flag, name, category. -/
structure BusInfo where
  name_ : String
  bus_type_ : BusType
  dir_ : BusDirection
  channel_count_ : Nat
  speaker_ : Nat
  is_active_ : Bool
deriving DecidableEq, Repr

/-- `Vst3Plugin::Impl::AudioBusesInfo`: the members that describe the topology. -/
structure AudioBusesInfo where
  bus_infos_ : List BusInfo
  dir_ : BusDirection
deriving DecidableEq, Repr

namespace AudioBusesInfo

/-- Modelled from the spec: `GetNumBuses()` (defined in `Vst3PluginImpl.cpp`, not among
the sources) is the number of declared buses. -/
def GetNumBuses (info : AudioBusesInfo) : Nat := info.bus_infos_.length

/-- Modelled from the spec: `GetNumChannels()` (defined in `Vst3PluginImpl.cpp`, not
among the sources) accumulates the channel count of every declared bus, one bus after
the other, whatever its active flag. -/
def GetNumChannels (info : AudioBusesInfo) : Nat :=
  info.bus_infos_.foldl (fun acc bus => acc + bus.channel_count_) 0

/-- Modelled from the spec: `GetNumActiveChannels()` (not among the sources) accumulates
the channel count of the buses currently marked active. -/
def GetNumActiveChannels (info : AudioBusesInfo) : Nat :=
  info.bus_infos_.foldl (fun acc bus => if bus.is_active_ then acc + bus.channel_count_ else acc) 0

/-- Modelled from the spec: `IsActive(bus_index)` (not among the sources); an index out
of range fails fast. -/
def IsActive (info : AudioBusesInfo) (bus_index : Nat) : Option Bool :=
  (info.bus_infos_.get? bus_index).map (fun bus => bus.is_active_)

/-- Modelled from the spec: `SetActive(bus_index, state)` (not among the sources) informs
the plugin of the desired activation and records the result. `accepted` is the plugin's
answer; a rejected request leaves the prior state as it was; an index out of range fails
fast (`none`). -/
def SetActive (info : AudioBusesInfo) (accepted : Bool) (bus_index : Nat) (state : Bool) :
    Option AudioBusesInfo :=
  match info.bus_infos_.get? bus_index with
  | none => none
  | some bus =>
    if accepted then
      some { info with bus_infos_ := info.bus_infos_.set bus_index { bus with is_active_ := state } }
    else
      some info

/-- The same topology with every active flag rewritten by `flag` (bus index to flag). -/
def withActiveFlags (info : AudioBusesInfo) (flag : Nat → Bool) : AudioBusesInfo :=
  { info with
    bus_infos_ := info.bus_infos_.enum.map (fun ib => { ib.2 with is_active_ := flag ib.1 }) }

end AudioBusesInfo

/-! ### Parameter change channel -/

/-- Parameter identifier, `Vst::ParamID` (unsigned 32-bit). -/
abbrev ParamID := Nat

/-- One pending change as the control side hands it over: parameter id and new value.
The value type `V` stands for `Vst::ParamValue`; the channel stores and forwards values
without computing on them. -/
abbrev ParameterChange (V : Type) := ParamID × V

/-- Modelled from the spec: the state of the channel, `param_changes_queue_`, as the
pending changes in enqueue order. Its operations are defined in `Vst3PluginImpl.cpp`,
which is not among the sources. -/
structure ParameterChangeChannel (V : Type) where
  param_changes_queue_ : List (ParameterChange V)
deriving DecidableEq, Repr

namespace ParameterChangeChannel

variable {V : Type}

/-- The channel of a freshly constructed engine. -/
def empty : ParameterChangeChannel V := { param_changes_queue_ := [] }

/-- Modelled from the spec: `PushBackParameterChange(id, value)` appends one pending
change; the whole body runs inside the critical section of `parameter_queue_mutex_`,
so it is one atomic step. -/
def PushBackParameterChange (ch : ParameterChangeChannel V) (id : ParamID) (value : V) :
    ParameterChangeChannel V :=
  { param_changes_queue_ := ch.param_changes_queue_ ++ [(id, value)] }

/-- Modelled from the spec: `PopFrontParameterChanges(dest)` atomically takes every change
enqueued since the previous drain, appends them to `dest` in enqueue order and leaves
the channel empty. Returns the new `dest` and the new channel. -/
def PopFrontParameterChanges (ch : ParameterChangeChannel V) (dest : List (ParameterChange V)) :
    List (ParameterChange V) × ParameterChangeChannel V :=
  (dest ++ ch.param_changes_queue_, { param_changes_queue_ := [] })

end ParameterChangeChannel

/-- Control-side callers pushing concurrently: every caller still has a list of pushes
to make, in its own program order; `channel` is the shared channel and `enqueued` records
the changes in the order in which the callers obtained the lock. -/
structure PushSystem (V : Type) where
  callers : List (List (ParameterChange V))
  channel : ParameterChangeChannel V
  enqueued : List (ParameterChange V)
deriving DecidableEq, Repr

namespace PushSystem

variable {V : Type}

/-- All callers ready to start, the channel empty. -/
def start (callers : List (List (ParameterChange V))) : PushSystem V :=
  { callers := callers, channel := ParameterChangeChannel.empty, enqueued := [] }

/-- The next push of caller `i`, and the callers after it was taken; `none` when there is
no caller `i` or it has finished. -/
def takeNext : List (List (ParameterChange V)) → Nat →
    Option (ParameterChange V × List (List (ParameterChange V)))
  | [], _ => none
  | [] :: _, 0 => none
  | (e :: rest) :: cs, 0 => some (e, rest :: cs)
  | c :: cs, i + 1 =>
    match takeNext cs i with
    | none => none
    | some (e, cs') => some (e, c :: cs')

/-- The scheduler lets caller `i` obtain the lock: its next push runs to completion.
A caller that has finished (or does not exist) leaves the system as it is. -/
def step (sys : PushSystem V) (i : Nat) : PushSystem V :=
  match takeNext sys.callers i with
  | none => sys
  | some (e, cs') =>
    { callers := cs'
      channel := sys.channel.PushBackParameterChange e.1 e.2
      enqueued := sys.enqueued ++ [e] }

/-- Runs a schedule: the sequence of callers that obtain the lock, in order. -/
def run (sys : PushSystem V) (schedule : List Nat) : PushSystem V :=
  schedule.foldl step sys

/-- Every caller has made all its pushes. -/
def finished (sys : PushSystem V) : Bool := sys.callers.all (fun c => c.isEmpty)

end PushSystem

/-! ## App.cpp -/

/-- How a call ends: it returns a value, or it leaves through a `std::exception`. -/
inductive Outcome (α : Type) where
  | returned (a : α)
  | thrown
deriving DecidableEq, Repr

/-- Handle of a created `Vst3Plugin`. -/
abbrev PluginHandle := Nat

/-- Handle of a created `Vst3PluginFactory`. -/
abbrev FactoryHandle := Nat

/-- A registered listener. Its callbacks are code outside the application object; what
the application can observe of them is that they were called and whether they threw. -/
structure Listener where
  id : Nat
  throwsOnLoaded : Bool
  throwsOnUnloaded : Bool
deriving DecidableEq, Repr

/-- One callback made on a listener, with the arguments it was given. -/
inductive Notification where
  | OnFactoryLoaded (li : Listener) (path : String) (factory : Option FactoryHandle)
  | OnFactoryUnloaded (li : Listener)
  | OnVst3PluginLoaded (li : Listener) (plugin : Option PluginHandle)
  | OnVst3PluginUnloaded (li : Listener) (plugin : Option PluginHandle)
deriving DecidableEq, Repr

/-- The members of `MyApp` the load/unload operations touch: `factory_`, `plugin_`, the
instrument held by `project_`, the two listener registries in registration order, and
the callbacks made so far, oldest first. -/
structure MyApp where
  factory_ : Option FactoryHandle
  plugin_ : Option PluginHandle
  instrument : Option PluginHandle
  fl_listeners_ : List Listener
  vl_listeners_ : List Listener
  notified : List Notification
deriving DecidableEq, Repr

/-- Records the callback and lets it end the way the listener ends it. -/
def notify (throws : Bool) (n : Notification) (app : MyApp) : Outcome Unit × MyApp :=
  (if throws then Outcome.thrown else Outcome.returned (),
   { app with notified := app.notified ++ [n] })

/-- Modelled from the spec: `ListenerService::Invoke(f)` (declared in a header that is
not among the sources) applies `f` to the registered listeners in registration order;
an exception thrown by `f` leaves the loop. -/
def Invoke (f : Listener → MyApp → Outcome Unit × MyApp) :
    List Listener → MyApp → Outcome Unit × MyApp
  | [], app => (Outcome.returned (), app)
  | li :: rest, app =>
    match f li app with
    | (Outcome.returned _, app1) => Invoke f rest app1
    | (Outcome.thrown, app1) => (Outcome.thrown, app1)

/-- Modelled from the spec: `ListenerService::InvokeReversed(f)` (not among the
sources) does the same over the registry in reverse registration order. -/
def InvokeReversed (f : Listener → MyApp → Outcome Unit × MyApp)
    (listeners : List Listener) (app : MyApp) : Outcome Unit × MyApp :=
  Invoke f listeners.reverse app

namespace MyApp

/-- Modelled from the spec: `AddVst3PluginLoadListener(li)` registers at the end of the
ordered registry (`ListenerService::AddListener` is not among the sources). -/
def AddVst3PluginLoadListener (app : MyApp) (li : Listener) : MyApp :=
  { app with vl_listeners_ := app.vl_listeners_ ++ [li] }

/-- Modelled from the spec: `AddFactoryLoadListener(li)` registers at the end of the
ordered registry (`ListenerService::AddListener` is not among the sources). -/
def AddFactoryLoadListener (app : MyApp) (li : Listener) : MyApp :=
  { app with fl_listeners_ := app.fl_listeners_ ++ [li] }

/-- `IsFactoryLoaded()`: `return !!factory_;` -/
def IsFactoryLoaded (app : MyApp) : Bool := app.factory_.isSome

/-- `IsVst3PluginLoaded()`: `return !!plugin_;` -/
def IsVst3PluginLoaded (app : MyApp) : Bool := app.plugin_.isSome

/-- `GetPlugin()`: `return plugin_.get();` -/
def GetPlugin (app : MyApp) : Option PluginHandle := app.plugin_

/-- `GetFactory()`: `return factory_.get();` -/
def GetFactory (app : MyApp) : Option FactoryHandle := app.factory_

/-- `UnloadVst3Plugin()`. -/
def UnloadVst3Plugin (app : MyApp) : Outcome Unit × MyApp :=
  if app.plugin_.isSome then
    -- project_->RemoveInstrument();
    let app1 := { app with instrument := none }
    match InvokeReversed
        (fun li a => notify li.throwsOnUnloaded (Notification.OnVst3PluginUnloaded li a.plugin_) a)
        app1.vl_listeners_ app1 with
    | (Outcome.thrown, app2) => (Outcome.thrown, app2)
    | (Outcome.returned _, app2) =>
      -- auto tmp = std::move(plugin_); tmp.reset();
      (Outcome.returned (), { app2 with plugin_ := none })
  else
    (Outcome.returned (), app)

/-- `UnloadFactory()`. -/
def UnloadFactory (app : MyApp) : Outcome Unit × MyApp :=
  if app.factory_.isNone then
    (Outcome.returned (), app)
  else
    match UnloadVst3Plugin app with
    | (Outcome.thrown, app1) => (Outcome.thrown, app1)
    | (Outcome.returned _, app1) =>
      InvokeReversed
        (fun li a => notify li.throwsOnUnloaded (Notification.OnFactoryUnloaded li) a)
        app1.fl_listeners_ app1

/-- `LoadVst3Plugin(component_index)`. `CreateByIndex fac i` is the outcome of
`factory_->CreateByIndex(i)` on the held factory: the pointer it returns, or an
exception. The result is `none` when `assert(IsFactoryLoaded())` fails. -/
def LoadVst3Plugin (CreateByIndex : FactoryHandle → Int → Outcome (Option PluginHandle))
    (component_index : Int) (app : MyApp) : Option Bool × MyApp :=
  match app.factory_ with
  | none => (none, app)
  | some fac =>
    match CreateByIndex fac component_index with
    | Outcome.thrown => (some false, app)
    | Outcome.returned tmp_plugin =>
      match UnloadVst3Plugin app with
      | (Outcome.thrown, app1) => (some false, app1)
      | (Outcome.returned _, app1) =>
        let app2 := { app1 with plugin_ := tmp_plugin }
        -- project_->SetInstrument(plugin_);
        let app3 := { app2 with instrument := app2.plugin_ }
        match Invoke
            (fun li a => notify li.throwsOnLoaded (Notification.OnVst3PluginLoaded li a.plugin_) a)
            app3.vl_listeners_ app3 with
        | (Outcome.thrown, app4) => (some false, app4)
        | (Outcome.returned _, app4) => (some true, app4)

end MyApp

/-- The callbacks made between two states of the application, oldest first. -/
def notifiedSince (before after : MyApp) : List Notification :=
  after.notified.drop before.notified.length

/-- The listeners that received `OnVst3PluginLoaded`, in the order they received it. -/
def pluginLoadedListeners (ns : List Notification) : List Listener :=
  ns.filterMap (fun n =>
    match n with
    | Notification.OnVst3PluginLoaded li _ => some li
    | _ => none)

/-- The listeners that received `OnFactoryUnloaded`, in the order they received it. -/
def factoryUnloadedListeners (ns : List Notification) : List Listener :=
  ns.filterMap (fun n =>
    match n with
    | Notification.OnFactoryUnloaded li => some li
    | _ => none)

/-- No listener of the list throws from either callback. -/
def noneThrows (listeners : List Listener) : Bool :=
  listeners.all (fun li => !li.throwsOnLoaded && !li.throwsOnUnloaded)

/-! ## Concrete inputs -/

/-- An object that answers every query with `kResultTrue` and the interface `7`. -/
def answeringObject : FUnknown := { queryInterface := fun _ => (sdkCodes.kResultTrue, some 7) }

/-- A factory that answers `kResultTrue` and leaves the pointer null. -/
def silentFactory : IPluginFactory := { createInstance := fun _ _ => (sdkCodes.kResultTrue, none) }

/-- An object that answers `kResultTrue` and leaves the pointer null. -/
def silentObject : FUnknown := { queryInterface := fun _ => (sdkCodes.kResultTrue, none) }

/-- Output buses of a small plugin: an active stereo main bus and an inactive mono
auxiliary bus. -/
def stereoAndMono : AudioBusesInfo :=
  { bus_infos_ :=
      [ { name_ := "Main", bus_type_ := BusType.kMain, dir_ := BusDirection.kOutput,
          channel_count_ := 2, speaker_ := 3, is_active_ := true },
        { name_ := "Aux", bus_type_ := BusType.kAux, dir_ := BusDirection.kOutput,
          channel_count_ := 1, speaker_ := 1, is_active_ := false } ]
    dir_ := BusDirection.kOutput }

/-- Two control-side callers: one pushes two changes, the other one change. -/
def twoCallers : List (List (ParameterChange Nat)) := [[(1, 10), (2, 20)], [(3, 30)]]

/-- An application holding factory `1` and plugin `5`, with two factory listeners and
three plugin listeners, none of which throws. -/
def demoApp : MyApp :=
  { factory_ := some 1
    plugin_ := some 5
    instrument := some 5
    fl_listeners_ := [⟨10, false, false⟩, ⟨11, false, false⟩]
    vl_listeners_ := [⟨20, false, false⟩, ⟨21, false, false⟩, ⟨22, false, false⟩]
    notified := [] }

/-- A factory whose component `0` can be created (as plugin `6`) and whose other
indices make `CreateByIndex` throw. -/
def demoCreateByIndex : FactoryHandle → Int → Outcome (Option PluginHandle) :=
  fun _ i => if i = 0 then Outcome.returned (some 6) else Outcome.thrown

/-- The same application before any factory was loaded: nothing held. -/
def demoAppNoFactory : MyApp :=
  { demoApp with factory_ := none, plugin_ := none, instrument := none }

/-- The application of `demoApp` whose second plugin listener throws from
`OnVst3PluginLoaded`. -/
def throwingApp : MyApp :=
  { demoApp with
    vl_listeners_ := [⟨20, false, false⟩, ⟨21, true, false⟩, ⟨22, false, false⟩] }

/-- C9: `Either` is a faithful success/failure tag. Built from a Left value it reports
`is_right() == false` and `left()` returns that value; built from a Right value it
reports `is_right() == true` and `right()` returns that value; and on every `Either`
whatsoever `visit(f)` completes without an accessor assertion firing, having applied
`f` exactly once: to the Right member when `is_right()`, to the Left member otherwise. -/
theorem Either_faithful_tag {Left Right σ : Type} [Inhabited Left] [Inhabited Right] :
    (∀ l : Left, (Either.ofLeft l : Either Left Right).is_right = false ∧
        (Either.ofLeft l : Either Left Right).left = some l) ∧
    (∀ r : Right, (Either.ofRight r : Either Left Right).is_right = true ∧
        (Either.ofRight r : Either Left Right).right = some r) ∧
    (∀ (e : Either Left Right) (f : Left ⊕ Right → σ → σ) (s : σ),
        e.visit f s
          = some (if e.is_right = true then f (Sum.inr e.right_) s else f (Sum.inl e.left_) s)) ∧
    (∀ e : Either Left Right,
        e.visit (fun a calls => calls ++ [a]) []
          = some [if e.is_right = true then Sum.inr e.right_ else Sum.inl e.left_]) ∧
    (∀ (l : Left) (f : Left ⊕ Right → σ → σ) (s : σ),
        (Either.ofLeft l : Either Left Right).visit f s = some (f (Sum.inl l) s)) ∧
    (∀ (r : Right) (f : Left ⊕ Right → σ → σ) (s : σ),
        (Either.ofRight r : Either Left Right).visit f s = some (f (Sum.inr r) s)) := by
  refine ⟨fun l => ⟨rfl, rfl⟩, fun r => ⟨rfl, rfl⟩, ?_, ?_, fun l f s => rfl, fun r f s => rfl⟩
  · intro e f s
    cases h : e.is_right_ <;> simp [Either.visit, Either.is_right, Either.left, Either.right, h]
  · intro e
    cases h : e.is_right_ <;> simp [Either.visit, Either.is_right, Either.left, Either.right, h]

/-! ## queryInterface_impl and createInstance_impl -/

/-- C1: `queryInterface_impl` classifies the provider's answer `(res, obtained)`. It
always returns; the result is a success exactly when `res == kResultTrue` and `obtained`
is non-null, and then holds `obtained`; when `res != kResultTrue` it is a failure carrying
`res`; when `res == kResultTrue` and `obtained` is null it is a failure carrying
`kNoInterface`. -/
theorem queryInterface_impl_classifies (c : ResultCodes) (obj : FUnknown) (iid : FIDString) :
    ∃ e, queryInterface_impl c (some obj) iid = some e ∧
      (e.is_right = true ↔
        (obj.queryInterface iid).1 = c.kResultTrue ∧ (obj.queryInterface iid).2 ≠ none) ∧
      (e.is_right = true → e.right = some (obj.queryInterface iid).2) ∧
      ((obj.queryInterface iid).1 ≠ c.kResultTrue →
        e.is_right = false ∧ e.left = some (obj.queryInterface iid).1) ∧
      ((obj.queryInterface iid).1 = c.kResultTrue → (obj.queryInterface iid).2 = none →
        e.is_right = false ∧ e.left = some c.kNoInterface) := by
  by_cases h1 : (obj.queryInterface iid).1 = c.kResultTrue
  · by_cases h2 : (obj.queryInterface iid).2 = none
    · refine ⟨Either.ofLeft c.kNoInterface, ?_, ?_⟩
      · simp [queryInterface_impl, h1, h2]
      · simp [Either.ofLeft, Either.is_right, Either.left, h1, h2]
    · refine ⟨Either.ofRight (obj.queryInterface iid).2, ?_, ?_⟩
      · simp [queryInterface_impl, h1, h2, to_unique]
      · simp [Either.ofRight, Either.is_right, Either.right, h1, h2]
  · refine ⟨Either.ofLeft (obj.queryInterface iid).1, ?_, ?_⟩
    · simp [queryInterface_impl, h1]
    · simp [Either.ofLeft, Either.is_right, Either.left, h1]

/-- C1 at a concrete object: the query succeeds and holds the interface. -/
theorem queryInterface_impl_classifies_witness :
    ∃ e, queryInterface_impl sdkCodes (some answeringObject) "IComponent" = some e ∧
      e.is_right = true ∧ e.right = some (some 7) := by
  obtain ⟨e, he, hiff, hright, -, -⟩ :=
    queryInterface_impl_classifies sdkCodes answeringObject "IComponent"
  have hr : e.is_right = true := hiff.2 ⟨rfl, by simp [answeringObject]⟩
  exact ⟨e, he, hr, hright hr⟩

/-- Away from the answer (`kResultTrue`, null pointer), `createInstance_impl` and
`queryInterface_impl` classify the same answer the same way. -/
theorem createInstance_impl_agrees_elsewhere (c : ResultCodes) (res : tresult)
    (obtained : Option Handle) (class_id : FUID) (iid : FIDString)
    (h : ¬ (res = c.kResultTrue ∧ obtained = none)) :
    createInstance_impl c (some { createInstance := fun _ _ => (res, obtained) }) class_id iid
      = queryInterface_impl c (some { queryInterface := fun _ => (res, obtained) }) iid := by
  by_cases h1 : res = c.kResultTrue
  · have h2 : obtained ≠ none := fun h2 => h ⟨h1, h2⟩
    simp [createInstance_impl, queryInterface_impl, h1, h2]
  · simp [createInstance_impl, queryInterface_impl, h1]

/-- C2: on the answer (`kResultTrue`, null pointer) `createInstance_impl` returns a
failure that carries `kResultTrue`, while `queryInterface_impl` returns a failure that
carries `kNoInterface`; the two outcomes differ. -/
theorem createInstance_impl_null_pointer_diverges :
    createInstance_impl sdkCodes (some silentFactory) "class" "IComponent"
        = some (Either.ofLeft sdkCodes.kResultTrue) ∧
    queryInterface_impl sdkCodes (some silentObject) "IComponent"
        = some (Either.ofLeft sdkCodes.kNoInterface) ∧
    createInstance_impl sdkCodes (some silentFactory) "class" "IComponent"
        ≠ queryInterface_impl sdkCodes (some silentObject) "IComponent" := by
  refine ⟨by rfl, by rfl, ?_⟩
  simp [createInstance_impl, queryInterface_impl, silentFactory, silentObject, sdkCodes,
    Either.ofLeft]

/-! ## Error and Status -/

/-- C5: an engine error keeps its provenance: `Error(ctx, c)` reports `context() == ctx`
and `code() == c`, for every context and every status code. -/
theorem Error_keeps_provenance (ctx : ErrorContext) (c : tresult) :
    (Error.mk_Error ctx c).context = ctx ∧ (Error.mk_Error ctx c).code = c :=
  ⟨rfl, rfl⟩

/-- C8, as stated, fails: `kInvalid` is a value of `Status` and is none of
`kCreated`, `kInitialized`, `kSetupDone`, `kActivated`, `kProcessing`. -/
theorem Status_not_only_five :
    ¬ ∀ st : Status, st = Status.kCreated ∨ st = Status.kInitialized ∨ st = Status.kSetupDone ∨
        st = Status.kActivated ∨ st = Status.kProcessing := by
  intro h
  have := h Status.kInvalid
  simp at this

/-- C8, amended: `Status` has exactly six values, the sentinel `kInvalid` and the five
lifecycle states `kCreated`, `kInitialized`, `kSetupDone`, `kActivated`, `kProcessing`;
the six are pairwise distinct and there is no other value. -/
theorem Status_exactly_six :
    (∀ st : Status, st ∈ [Status.kInvalid, Status.kCreated, Status.kInitialized,
        Status.kSetupDone, Status.kActivated, Status.kProcessing]) ∧
    [Status.kInvalid, Status.kCreated, Status.kInitialized,
        Status.kSetupDone, Status.kActivated, Status.kProcessing].Nodup := by
  refine ⟨fun st => ?_, by decide⟩
  cases st <;> simp

/-! ## Bus topology -/

/-- The accumulation loop started at `n` adds the sum of the channel counts. -/
theorem foldl_channel_count (buses : List BusInfo) (n : Nat) :
    buses.foldl (fun acc bus => acc + bus.channel_count_) n
      = n + (buses.map (fun bus => bus.channel_count_)).sum := by
  induction buses generalizing n with
  | nil => simp
  | cons b rest ih => simp [List.foldl_cons, ih, Nat.add_assoc]

/-- Rewriting the active flag of the bus at `i` keeps the list of channel counts. -/
theorem channel_counts_set_active (buses : List BusInfo) (i : Nat) (bus : BusInfo)
    (state : Bool) (h : buses.get? i = some bus) :
    (buses.set i { bus with is_active_ := state }).map (fun b => b.channel_count_)
      = buses.map (fun b => b.channel_count_) := by
  induction buses generalizing i with
  | nil => simp
  | cons b rest ih =>
    cases i with
    | zero =>
      simp at h
      subst h
      simp
    | succ j =>
      simp at h
      simp [ih j (by simpa using h)]

/-- Rewriting every active flag keeps the list of channel counts. -/
theorem channel_counts_enumFrom (buses : List BusInfo) (flag : Nat → Bool) (n : Nat) :
    ((buses.enumFrom n).map (fun ib => ({ ib.2 with is_active_ := flag ib.1 } : BusInfo))).map
        (fun b => b.channel_count_)
      = buses.map (fun b => b.channel_count_) := by
  induction buses generalizing n with
  | nil => simp
  | cons b rest ih =>
    simp only [List.enumFrom_cons, List.map_cons]
    rw [ih (n + 1)]

/-- C3: `GetNumChannels()` is the sum of the channel counts of all declared buses, and
it does not depend on active flags: rewriting every flag leaves it unchanged, and
`SetActive` on a declared bus returns (whatever the plugin answers) with the same
`GetNumChannels()` and the same buses, the flag being the requested one when the plugin
accepted. -/
theorem GetNumChannels_sums_all_declared_buses (info : AudioBusesInfo) :
    info.GetNumChannels = (info.bus_infos_.map (fun bus => bus.channel_count_)).sum ∧
    (∀ flag : Nat → Bool, (info.withActiveFlags flag).GetNumChannels = info.GetNumChannels) ∧
    (∀ (accepted : Bool) (bus_index : Nat) (state : Bool), bus_index < info.GetNumBuses →
      ∃ info', info.SetActive accepted bus_index state = some info' ∧
        info'.GetNumChannels = info.GetNumChannels ∧
        info'.GetNumBuses = info.GetNumBuses ∧
        (accepted = true → info'.IsActive bus_index = some state)) ∧
    (∀ (accepted : Bool) (bus_index : Nat) (state : Bool) (info' : AudioBusesInfo),
      info.SetActive accepted bus_index state = some info' →
        info'.GetNumChannels = info.GetNumChannels) := by
  have hset : ∀ (accepted : Bool) (bus_index : Nat) (state : Bool) (info' : AudioBusesInfo),
      info.SetActive accepted bus_index state = some info' →
        info'.GetNumChannels = info.GetNumChannels := by
    intro accepted bus_index state info' h
    unfold AudioBusesInfo.SetActive at h
    cases hb : info.bus_infos_.get? bus_index with
    | none =>
      rw [hb] at h
      cases h
    | some bus =>
      rw [hb] at h
      cases accepted with
      | false =>
        simp only [Bool.false_eq_true, if_false, Option.some.injEq] at h
        subst h
        rfl
      | true =>
        simp only [if_true, Option.some.injEq] at h
        subst h
        simp only [AudioBusesInfo.GetNumChannels, foldl_channel_count]
        rw [channel_counts_set_active _ _ _ _ hb]
  refine ⟨?_, ?_, ?_, hset⟩
  · simp [AudioBusesInfo.GetNumChannels, foldl_channel_count]
  · intro flag
    simp only [AudioBusesInfo.GetNumChannels, AudioBusesInfo.withActiveFlags,
      foldl_channel_count, List.enum]
    rw [channel_counts_enumFrom]
  · intro accepted bus_index state hlt
    have hlt' : bus_index < info.bus_infos_.length := hlt
    obtain ⟨bus, hb⟩ : ∃ bus, info.bus_infos_.get? bus_index = some bus :=
      ⟨_, List.get?_eq_get hlt'⟩
    cases accepted with
    | false =>
      refine ⟨info, ?_, rfl, rfl, ?_⟩
      · unfold AudioBusesInfo.SetActive
        rw [hb]
        rfl
      · intro h
        cases h
    | true =>
      have hs : info.SetActive true bus_index state
          = some ⟨info.bus_infos_.set bus_index
              ⟨bus.name_, bus.bus_type_, bus.dir_, bus.channel_count_, bus.speaker_, state⟩,
              info.dir_⟩ := by
        unfold AudioBusesInfo.SetActive
        rw [hb]
        rfl
      refine ⟨_, hs, hset true bus_index state _ hs, ?_, ?_⟩
      · simp [AudioBusesInfo.GetNumBuses]
      · intro _
        simp [AudioBusesInfo.IsActive, List.getElem?_set, hlt']

/-- C3 at a concrete topology: a stereo bus and an inactive mono bus give three channels,
before and after the mono bus is activated. -/
theorem GetNumChannels_sums_all_declared_buses_witness :
    stereoAndMono.GetNumChannels = 3 ∧
    ∃ info', stereoAndMono.SetActive true 1 true = some info' ∧
      info'.GetNumChannels = stereoAndMono.GetNumChannels ∧
      info'.IsActive 1 = some true := by
  obtain ⟨info', h1, h2, -, h4⟩ :=
    (GetNumChannels_sums_all_declared_buses stereoAndMono).2.2.1 true 1 true (by decide)
  exact ⟨by decide, info', h1, h2, h4 rfl⟩

/-! ## Parameter change channel -/

/-- Taking the next push of a caller removes exactly that one change from what the
callers still have to push. -/
theorem takeNext_perm {V : Type} (cs : List (List (ParameterChange V))) (i : Nat)
    (e : ParameterChange V) (cs' : List (List (ParameterChange V)))
    (h : PushSystem.takeNext cs i = some (e, cs')) :
    cs.flatten.Perm (e :: cs'.flatten) := by
  induction cs generalizing i cs' with
  | nil => simp [PushSystem.takeNext] at h
  | cons c rest ih =>
    cases i with
    | zero =>
      cases c with
      | nil => simp [PushSystem.takeNext] at h
      | cons e0 c0 =>
        simp only [PushSystem.takeNext, Option.some.injEq, Prod.mk.injEq] at h
        obtain ⟨h1, h2⟩ := h
        subst h1
        subst h2
        simp
    | succ j =>
      simp only [PushSystem.takeNext] at h
      cases hn : PushSystem.takeNext rest j with
      | none => simp [hn] at h
      | some r =>
        obtain ⟨e1, cs1⟩ := r
        simp only [hn, Option.some.injEq, Prod.mk.injEq] at h
        obtain ⟨h1, h2⟩ := h
        subst h1
        subst h2
        have hp := ih j cs1 hn
        simp only [List.flatten_cons]
        exact (List.Perm.append_left c hp).trans List.perm_middle

/-- One scheduler step keeps the channel equal to the enqueue record, and keeps the
record followed by the pending pushes a rearrangement of all the pushes. -/
theorem step_invariant {V : Type} (all : List (ParameterChange V)) (sys : PushSystem V)
    (i : Nat) (hq : sys.channel.param_changes_queue_ = sys.enqueued)
    (hp : (sys.enqueued ++ sys.callers.flatten).Perm all) :
    (sys.step i).channel.param_changes_queue_ = (sys.step i).enqueued ∧
    ((sys.step i).enqueued ++ (sys.step i).callers.flatten).Perm all := by
  unfold PushSystem.step
  cases hn : PushSystem.takeNext sys.callers i with
  | none => exact ⟨hq, hp⟩
  | some r =>
    obtain ⟨e, cs1⟩ := r
    refine ⟨?_, ?_⟩
    · simp [ParameterChangeChannel.PushBackParameterChange, hq]
    · have h1 := takeNext_perm sys.callers i e cs1 hn
      have h2 : (sys.enqueued ++ [e] ++ cs1.flatten).Perm (sys.enqueued ++ sys.callers.flatten) := by
        simp only [List.append_assoc, List.singleton_append]
        exact List.Perm.append_left _ h1.symm
      exact h2.trans hp

/-- The invariant of `step_invariant` holds along every schedule. -/
theorem run_invariant {V : Type} (all : List (ParameterChange V)) (schedule : List Nat)
    (sys : PushSystem V) (hq : sys.channel.param_changes_queue_ = sys.enqueued)
    (hp : (sys.enqueued ++ sys.callers.flatten).Perm all) :
    (sys.run schedule).channel.param_changes_queue_ = (sys.run schedule).enqueued ∧
    ((sys.run schedule).enqueued ++ (sys.run schedule).callers.flatten).Perm all := by
  induction schedule generalizing sys with
  | nil => exact ⟨hq, hp⟩
  | cons i rest ih =>
    obtain ⟨h1, h2⟩ := step_invariant all sys i hq hp
    exact ih (sys.step i) h1 h2

/-- When every caller has finished, nothing is left to push. -/
theorem finished_flatten {V : Type} (cs : List (List (ParameterChange V)))
    (h : cs.all (fun c => c.isEmpty) = true) : cs.flatten = [] := by
  induction cs with
  | nil => rfl
  | cons c rest ih =>
    simp only [List.all_cons, Bool.and_eq_true] at h
    cases c with
    | nil => simpa using ih h.2
    | cons e c0 =>
      have h1 := h.1
      simp at h1

/-- What `takeNext` takes: caller `i` was about to push `e`, and only its list changes. -/
theorem takeNext_set {V : Type} (cs : List (List (ParameterChange V))) (i : Nat)
    (e : ParameterChange V) (cs' : List (List (ParameterChange V)))
    (h : PushSystem.takeNext cs i = some (e, cs')) :
    ∃ rest, cs[i]? = some (e :: rest) ∧ cs' = cs.set i rest := by
  induction cs generalizing i cs' with
  | nil => simp [PushSystem.takeNext] at h
  | cons c tl ih =>
    cases i with
    | zero =>
      cases c with
      | nil => simp [PushSystem.takeNext] at h
      | cons e0 c0 =>
        simp only [PushSystem.takeNext, Option.some.injEq, Prod.mk.injEq] at h
        obtain ⟨h1, h2⟩ := h
        subst h1
        subst h2
        exact ⟨c0, by simp, by simp⟩
    | succ j =>
      simp only [PushSystem.takeNext] at h
      cases hn : PushSystem.takeNext tl j with
      | none => simp [hn] at h
      | some r =>
        obtain ⟨e1, cs1⟩ := r
        simp only [hn, Option.some.injEq, Prod.mk.injEq] at h
        obtain ⟨h1, h2⟩ := h
        subst h1
        subst h2
        obtain ⟨rest, hr1, hr2⟩ := ih j cs1 hn
        exact ⟨rest, by simpa using hr1, by simp [hr2]⟩

/-- One scheduler step keeps, for every caller, its program split into the pushes it has
made, found in the enqueue record in program order, and the pushes it still has to make. -/
theorem step_program_order {V : Type} (orig : List (List (ParameterChange V)))
    (sys : PushSystem V) (j : Nat)
    (hinv : ∀ (i : Nat) (c : List (ParameterChange V)), orig[i]? = some c →
      ∃ made cur, sys.callers[i]? = some cur ∧ c = made ++ cur ∧ made.Sublist sys.enqueued) :
    ∀ (i : Nat) (c : List (ParameterChange V)), orig[i]? = some c →
      ∃ made cur, (sys.step j).callers[i]? = some cur ∧ c = made ++ cur ∧
        made.Sublist (sys.step j).enqueued := by
  intro i c hc
  obtain ⟨made, cur, h1, h2, h3⟩ := hinv i c hc
  unfold PushSystem.step
  cases hn : PushSystem.takeNext sys.callers j with
  | none => exact ⟨made, cur, h1, h2, h3⟩
  | some r =>
    obtain ⟨e, cs1⟩ := r
    obtain ⟨rest, hr1, hr2⟩ := takeNext_set sys.callers j e cs1 hn
    by_cases hij : j = i
    · subst hij
      rw [h1] at hr1
      have hcur : cur = e :: rest := Option.some.inj hr1
      have hlt : j < sys.callers.length := by
        rcases List.getElem?_eq_some.mp h1 with ⟨hlt, -⟩
        exact hlt
      refine ⟨made ++ [e], rest, ?_, ?_, ?_⟩
      · simp only [hr2]
        exact List.getElem?_set_self hlt
      · simp [h2, hcur]
      · exact List.Sublist.append h3 (List.Sublist.refl _)
    · refine ⟨made, cur, ?_, h2, ?_⟩
      · simp only [hr2]
        rw [List.getElem?_set_ne hij]
        exact h1
      · exact List.sublist_append_of_sublist_left h3

/-- The split of `step_program_order` holds along every schedule. -/
theorem run_program_order {V : Type} (orig : List (List (ParameterChange V)))
    (schedule : List Nat) (sys : PushSystem V)
    (hinv : ∀ (i : Nat) (c : List (ParameterChange V)), orig[i]? = some c →
      ∃ made cur, sys.callers[i]? = some cur ∧ c = made ++ cur ∧ made.Sublist sys.enqueued) :
    ∀ (i : Nat) (c : List (ParameterChange V)), orig[i]? = some c →
      ∃ made cur, (sys.run schedule).callers[i]? = some cur ∧ c = made ++ cur ∧
        made.Sublist (sys.run schedule).enqueued := by
  induction schedule generalizing sys with
  | nil => exact hinv
  | cons j rest ih => exact ih (sys.step j) (step_program_order orig sys j hinv)

/-- C4: callers push concurrently, each push one atomic step under the lock, in any
interleaving; once all `N` pushes are made, one drain yields the changes in the order
they were enqueued, `N` of them, each pushed change once (none lost, none duplicated),
the pushes of every caller in the order that caller made them; and a second drain with no
push in between yields nothing. -/
theorem ParameterChangeChannel_drain_fifo {V : Type}
    (callers : List (List (ParameterChange V))) (schedule : List Nat)
    (hfin : ((PushSystem.start callers).run schedule).finished = true) :
    (((PushSystem.start callers).run schedule).channel.PopFrontParameterChanges []).1
        = ((PushSystem.start callers).run schedule).enqueued ∧
    (((PushSystem.start callers).run schedule).channel.PopFrontParameterChanges []).1.length
        = (callers.map List.length).sum ∧
    (((PushSystem.start callers).run schedule).channel.PopFrontParameterChanges []).1.Perm
        callers.flatten ∧
    (∀ c ∈ callers, c.Sublist
      (((PushSystem.start callers).run schedule).channel.PopFrontParameterChanges []).1) ∧
    ((((PushSystem.start callers).run schedule).channel.PopFrontParameterChanges []).2
        |>.PopFrontParameterChanges []).1 = [] := by
  obtain ⟨hq, hp⟩ := run_invariant callers.flatten schedule (PushSystem.start callers) rfl
    (by simp [PushSystem.start])
  have hnone := finished_flatten _ hfin
  rw [hnone, List.append_nil] at hp
  have hd : (((PushSystem.start callers).run schedule).channel.PopFrontParameterChanges []).1
      = ((PushSystem.start callers).run schedule).enqueued := by
    simp [ParameterChangeChannel.PopFrontParameterChanges, hq]
  refine ⟨hd, ?_, ?_, ?_, ?_⟩
  · rw [hd, hp.length_eq, List.length_flatten]
  · rw [hd]
    exact hp
  · intro c hc
    obtain ⟨i, hi⟩ := List.mem_iff_getElem?.mp hc
    obtain ⟨made, cur, h1, h2, h3⟩ :=
      run_program_order callers schedule (PushSystem.start callers)
        (fun k d hd => ⟨[], d, hd, rfl, List.nil_sublist _⟩) i c hi
    have hcur : cur = [] := by
      have hmem := List.getElem?_mem h1
      have hall := List.all_eq_true.mp hfin cur hmem
      exact List.isEmpty_iff.mp hall
    rw [hd, h2, hcur, List.append_nil]
    exact h3
  · simp [ParameterChangeChannel.PopFrontParameterChanges]

/-- C4 at a concrete run: two callers, the lock going to the first, the second, then the
first again; the drain yields the three changes in that order and the next drain none. -/
theorem ParameterChangeChannel_drain_fifo_witness :
    ((PushSystem.start twoCallers).run [0, 1, 0]).finished = true ∧
    (((PushSystem.start twoCallers).run [0, 1, 0]).channel.PopFrontParameterChanges []).1
        = [(1, 10), (3, 30), (2, 20)] ∧
    ((((PushSystem.start twoCallers).run [0, 1, 0]).channel.PopFrontParameterChanges []).2
        |>.PopFrontParameterChanges []).1 = [] := by
  have h := ParameterChangeChannel_drain_fifo twoCallers [0, 1, 0] (by decide)
  exact ⟨by decide, h.1.trans (by decide), h.2.2.2.2⟩

/-! ## Loading and unloading -/

/-- When no listener throws, `Invoke` returns after having called every listener of the
list once, in list order, and changes nothing but the record of callbacks. -/
theorem Invoke_notify_returns (throws : Listener → Bool) (ev : Listener → MyApp → Notification)
    (hev : ∀ li a ns, ev li { a with notified := ns } = ev li a)
    (ls : List Listener) (app : MyApp) (hno : ∀ li ∈ ls, throws li = false) :
    Invoke (fun li a => notify (throws li) (ev li a) a) ls app
      = (Outcome.returned (),
         { app with notified := app.notified ++ ls.map (fun li => ev li app) }) := by
  induction ls generalizing app with
  | nil => simp [Invoke]
  | cons li rest ih =>
    have h1 : throws li = false := hno li (List.mem_cons_self _ _)
    have h2 : ∀ l ∈ rest, throws l = false := fun l hl => hno l (List.mem_cons_of_mem _ hl)
    have hstep : notify (throws li) (ev li app) app
        = (Outcome.returned (), { app with notified := app.notified ++ [ev li app] }) := by
      simp [notify, h1]
    rw [Invoke]
    simp only [hstep]
    rw [ih _ h2]
    simp [hev]

/-- Whatever the listeners do, `Invoke` with a callback that keeps `factory_` keeps it. -/
theorem Invoke_keeps_factory (f : Listener → MyApp → Outcome Unit × MyApp)
    (hf : ∀ li a, (f li a).2.factory_ = a.factory_) (ls : List Listener) (app : MyApp) :
    (Invoke f ls app).2.factory_ = app.factory_ := by
  induction ls generalizing app with
  | nil => rfl
  | cons li rest ih =>
    have h := hf li app
    unfold Invoke
    cases hr : f li app with
    | mk o a1 =>
      rw [hr] at h
      cases o with
      | returned u =>
        simp only
        rw [ih a1]
        exact h
      | thrown => exact h

/-- Whatever the listeners do, `UnloadVst3Plugin` keeps `factory_`. -/
theorem UnloadVst3Plugin_keeps_factory (app : MyApp) :
    app.UnloadVst3Plugin.2.factory_ = app.factory_ := by
  unfold MyApp.UnloadVst3Plugin
  cases hp : app.plugin_.isSome with
  | false => simp
  | true =>
    simp only [if_true]
    have h := Invoke_keeps_factory
      (fun li a => notify li.throwsOnUnloaded (Notification.OnVst3PluginUnloaded li a.plugin_) a)
      (fun _ _ => rfl) app.vl_listeners_.reverse { app with instrument := none }
    unfold InvokeReversed
    cases hr : Invoke
      (fun li a => notify li.throwsOnUnloaded (Notification.OnVst3PluginUnloaded li a.plugin_) a)
      app.vl_listeners_.reverse { app with instrument := none } with
    | mk o a2 =>
      rw [hr] at h
      cases o with
      | returned u => exact h
      | thrown => exact h

/-- When no listener throws from `OnVst3PluginUnloaded`, `UnloadVst3Plugin` returns: with
no plugin held it changes nothing; otherwise it removes the instrument, calls every
listener once in reverse registration order with the plugin still held, then releases
the plugin. -/
theorem UnloadVst3Plugin_returns (app : MyApp)
    (hno : ∀ li ∈ app.vl_listeners_, li.throwsOnUnloaded = false) :
    app.UnloadVst3Plugin
      = (Outcome.returned (),
         if app.plugin_.isSome then
           { app with
             instrument := none
             plugin_ := none
             notified := app.notified ++ app.vl_listeners_.reverse.map
               (fun li => Notification.OnVst3PluginUnloaded li app.plugin_) }
         else app) := by
  unfold MyApp.UnloadVst3Plugin
  cases hp : app.plugin_.isSome with
  | false => simp
  | true =>
    simp only [if_true]
    unfold InvokeReversed
    have h := Invoke_notify_returns (fun li => li.throwsOnUnloaded)
      (fun li a => Notification.OnVst3PluginUnloaded li a.plugin_) (fun _ _ _ => rfl)
      app.vl_listeners_.reverse { app with instrument := none }
      (fun li hli => hno li (List.mem_reverse.mp hli))
    simp only at h
    rw [h]

/-- The callbacks made since `before` are what was appended to its record. -/
theorem notifiedSince_append (before after : MyApp) (ns : List Notification)
    (h : after.notified = before.notified ++ ns) : notifiedSince before after = ns := by
  simp [notifiedSince, h]

/-- Reading the `OnFactoryUnloaded` receivers off such callbacks gives the listeners. -/
theorem factoryUnloaded_of_unloaded (ls : List Listener) :
    factoryUnloadedListeners (ls.map (fun li => Notification.OnFactoryUnloaded li)) = ls := by
  induction ls with
  | nil => rfl
  | cons li rest ih =>
    simp only [factoryUnloadedListeners] at ih
    simp [factoryUnloadedListeners, ih]

/-- No `OnVst3PluginUnloaded` callback is an `OnFactoryUnloaded` one. -/
theorem factoryUnloaded_of_pluginUnloaded (ls : List Listener) (p : Option PluginHandle) :
    factoryUnloadedListeners (ls.map (fun li => Notification.OnVst3PluginUnloaded li p)) = [] := by
  induction ls with
  | nil => rfl
  | cons li rest ih =>
    simp only [factoryUnloadedListeners] at ih
    simp [factoryUnloadedListeners, ih]

/-- A list of listeners none of which throws: the `OnVst3PluginUnloaded` side. -/
theorem noneThrows_unloaded (ls : List Listener) (h : noneThrows ls = true) :
    ∀ li ∈ ls, li.throwsOnUnloaded = false := by
  intro li hli
  have := (List.all_eq_true.mp h) li hli
  simp at this
  exact this.2

/-- A list of listeners none of which throws: the loaded side. -/
theorem noneThrows_loaded (ls : List Listener) (h : noneThrows ls = true) :
    ∀ li ∈ ls, li.throwsOnLoaded = false := by
  intro li hli
  have := (List.all_eq_true.mp h) li hli
  simp at this
  exact this.1

/-- When creation succeeds and no plugin listener throws, `LoadVst3Plugin` returns `true`
in the state where the old plugin (if any) was unloaded with its notifications, the
created plugin is held and is the instrument, and every listener received
`OnVst3PluginLoaded` once, in registration order. -/
theorem LoadVst3Plugin_returns (CreateByIndex : FactoryHandle → Int → Outcome (Option PluginHandle))
    (component_index : Int) (app : MyApp) (fac : FactoryHandle)
    (tmp_plugin : Option PluginHandle) (hfac : app.factory_ = some fac)
    (hc : CreateByIndex fac component_index = Outcome.returned tmp_plugin)
    (hno : noneThrows app.vl_listeners_ = true) :
    app.LoadVst3Plugin CreateByIndex component_index
      = (some true,
         { factory_ := app.factory_
           plugin_ := tmp_plugin
           instrument := tmp_plugin
           fl_listeners_ := app.fl_listeners_
           vl_listeners_ := app.vl_listeners_
           notified := app.notified ++
             ((if app.plugin_.isSome then app.vl_listeners_.reverse.map
                 (fun li => Notification.OnVst3PluginUnloaded li app.plugin_) else []) ++
              app.vl_listeners_.map (fun li => Notification.OnVst3PluginLoaded li tmp_plugin)) }) := by
  unfold MyApp.LoadVst3Plugin
  rw [hfac]
  simp only [hc]
  rw [UnloadVst3Plugin_returns app (noneThrows_unloaded _ hno)]
  simp only
  cases hp : app.plugin_.isSome with
  | false =>
    have h := Invoke_notify_returns (fun li => li.throwsOnLoaded)
      (fun li a => Notification.OnVst3PluginLoaded li a.plugin_) (fun _ _ _ => rfl)
      app.vl_listeners_ { app with plugin_ := tmp_plugin, instrument := tmp_plugin }
      (noneThrows_loaded _ hno)
    simp only at h
    simp only [Bool.false_eq_true, if_false]
    rw [h]
    simp [hfac]
  | true =>
    have h := Invoke_notify_returns (fun li => li.throwsOnLoaded)
      (fun li a => Notification.OnVst3PluginLoaded li a.plugin_) (fun _ _ _ => rfl)
      app.vl_listeners_
      { app with
        plugin_ := tmp_plugin
        instrument := tmp_plugin
        notified := app.notified ++ app.vl_listeners_.reverse.map
          (fun li => Notification.OnVst3PluginUnloaded li app.plugin_) }
      (noneThrows_loaded _ hno)
    simp only at h
    simp only [if_true]
    rw [h]
    simp [hfac]

/-- C6: `LoadVst3Plugin` on a state with a loaded factory. If `CreateByIndex` throws, the
call returns `false` and the whole state is exactly as before: the held plugin (or its
absence) is the same and no listener was called. If it returns a plugin and no listener
throws, the call returns `true` and the created plugin is the loaded one. -/
theorem LoadVst3Plugin_boolean_outcome
    (CreateByIndex : FactoryHandle → Int → Outcome (Option PluginHandle))
    (component_index : Int) (app : MyApp) (fac : FactoryHandle)
    (hfac : app.factory_ = some fac) :
    (CreateByIndex fac component_index = Outcome.thrown →
      app.LoadVst3Plugin CreateByIndex component_index = (some false, app) ∧
      (app.LoadVst3Plugin CreateByIndex component_index).2.plugin_ = app.plugin_ ∧
      notifiedSince app (app.LoadVst3Plugin CreateByIndex component_index).2 = []) ∧
    (∀ tmp_plugin : Option PluginHandle,
      CreateByIndex fac component_index = Outcome.returned tmp_plugin →
      noneThrows app.vl_listeners_ = true →
        (app.LoadVst3Plugin CreateByIndex component_index).1 = some true ∧
        (app.LoadVst3Plugin CreateByIndex component_index).2.GetPlugin = tmp_plugin ∧
        (app.LoadVst3Plugin CreateByIndex component_index).2.instrument = tmp_plugin) := by
  refine ⟨?_, ?_⟩
  · intro hc
    have h : app.LoadVst3Plugin CreateByIndex component_index = (some false, app) := by
      unfold MyApp.LoadVst3Plugin
      rw [hfac]
      simp only [hc]
    rw [h]
    exact ⟨rfl, rfl, by simp [notifiedSince]⟩
  · intro tmp_plugin hc hno
    rw [LoadVst3Plugin_returns CreateByIndex component_index app fac tmp_plugin hfac hc hno]
    exact ⟨rfl, rfl, rfl⟩

/-- C6 at a concrete state: with plugin `5` held, creating component `1` throws and the
call returns `false` leaving everything as it was; creating component `0` succeeds and
the call returns `true` with plugin `6` held. -/
theorem LoadVst3Plugin_boolean_outcome_witness :
    demoApp.factory_ = some 1 ∧
    demoApp.LoadVst3Plugin demoCreateByIndex 1 = (some false, demoApp) ∧
    (demoApp.LoadVst3Plugin demoCreateByIndex 0).1 = some true ∧
    (demoApp.LoadVst3Plugin demoCreateByIndex 0).2.GetPlugin = some 6 := by
  have h1 := (LoadVst3Plugin_boolean_outcome demoCreateByIndex 1 demoApp 1 rfl).1 rfl
  have h0 := (LoadVst3Plugin_boolean_outcome demoCreateByIndex 0 demoApp 1 rfl).2 (some 6) rfl
    (by decide)
  exact ⟨rfl, h1.1, h0.1, h0.2.1⟩

/-- Whatever the listeners do, `UnloadFactory` keeps `factory_`. -/
theorem UnloadFactory_keeps_factory_field (app : MyApp) :
    app.UnloadFactory.2.factory_ = app.factory_ := by
  unfold MyApp.UnloadFactory
  cases hf : app.factory_.isNone with
  | true => simp
  | false =>
    simp only [Bool.false_eq_true, if_false]
    have hu := UnloadVst3Plugin_keeps_factory app
    cases hr : app.UnloadVst3Plugin with
    | mk o a1 =>
      rw [hr] at hu
      cases o with
      | thrown => exact hu
      | returned u =>
        simp only
        unfold InvokeReversed
        rw [Invoke_keeps_factory _ (fun _ _ => rfl)]
        exact hu

/-- With a factory held and no throwing listener, `UnloadFactory` returns: the plugin (if
any) was unloaded with its notifications, then every factory listener received
`OnFactoryUnloaded` once, in reverse registration order; `factory_` is still held. -/
theorem UnloadFactory_returns (app : MyApp) (hfac : app.factory_.isSome = true)
    (hvl : noneThrows app.vl_listeners_ = true) (hfl : noneThrows app.fl_listeners_ = true) :
    app.UnloadFactory
      = (Outcome.returned (),
         { factory_ := app.factory_
           plugin_ := none
           instrument := if app.plugin_.isSome then none else app.instrument
           fl_listeners_ := app.fl_listeners_
           vl_listeners_ := app.vl_listeners_
           notified := app.notified ++
             ((if app.plugin_.isSome then app.vl_listeners_.reverse.map
                 (fun li => Notification.OnVst3PluginUnloaded li app.plugin_) else []) ++
              app.fl_listeners_.reverse.map (fun li => Notification.OnFactoryUnloaded li)) }) := by
  unfold MyApp.UnloadFactory
  have hf : app.factory_.isNone = false := by
    cases h : app.factory_ with
    | none => simp [h] at hfac
    | some f => rfl
  simp only [hf, Bool.false_eq_true, if_false]
  rw [UnloadVst3Plugin_returns app (noneThrows_unloaded _ hvl)]
  simp only
  unfold InvokeReversed
  cases hp : app.plugin_.isSome with
  | false =>
    have hnone : app.plugin_ = none := by
      cases h : app.plugin_ with
      | none => rfl
      | some q => simp [h] at hp
    have h := Invoke_notify_returns (fun li => li.throwsOnUnloaded)
      (fun li _ => Notification.OnFactoryUnloaded li) (fun _ _ _ => rfl)
      app.fl_listeners_.reverse app
      (fun li hli => noneThrows_unloaded _ hfl li (List.mem_reverse.mp hli))
    simp only at h
    simp only [Bool.false_eq_true, if_false]
    rw [h]
    simp [hnone]
  | true =>
    have h := Invoke_notify_returns (fun li => li.throwsOnUnloaded)
      (fun li _ => Notification.OnFactoryUnloaded li) (fun _ _ _ => rfl)
      app.fl_listeners_.reverse
      { app with
        instrument := none
        plugin_ := none
        notified := app.notified ++ app.vl_listeners_.reverse.map
          (fun li => Notification.OnVst3PluginUnloaded li app.plugin_) }
      (fun li hli => noneThrows_unloaded _ hfl li (List.mem_reverse.mp hli))
    simp only at h
    simp only [if_true]
    rw [h]
    simp

/-- With no factory held `UnloadFactory` returns at once and changes nothing. -/
theorem UnloadFactory_without_factory (app : MyApp) (hfac : app.factory_.isSome = false) :
    app.UnloadFactory = (Outcome.returned (), app) := by
  unfold MyApp.UnloadFactory
  have hf : app.factory_.isNone = true := by
    cases h : app.factory_ with
    | none => rfl
    | some f => simp [h] at hfac
  simp [hf]

/-- C10: `UnloadFactory` never clears the held factory. In every state, however the call
ends, `IsFactoryLoaded()` is afterwards what it was before. When a factory was loaded
(and no listener throws) the call returns with the plugin unloaded, every factory
listener having received `OnFactoryUnloaded` (once, in reverse registration order), and
the same factory still held and reported as loaded. When no factory is loaded the call
returns with the state unchanged and nobody notified. -/
theorem UnloadFactory_never_clears_factory (app : MyApp) :
    app.UnloadFactory.2.IsFactoryLoaded = app.IsFactoryLoaded ∧
    app.UnloadFactory.2.GetFactory = app.GetFactory ∧
    (app.IsFactoryLoaded = true →
      noneThrows app.vl_listeners_ = true → noneThrows app.fl_listeners_ = true →
        app.UnloadFactory.1 = Outcome.returned () ∧
        app.UnloadFactory.2.IsFactoryLoaded = true ∧
        app.UnloadFactory.2.IsVst3PluginLoaded = false ∧
        factoryUnloadedListeners (notifiedSince app app.UnloadFactory.2)
          = app.fl_listeners_.reverse) ∧
    (app.IsFactoryLoaded = false →
      app.UnloadFactory = (Outcome.returned (), app) ∧
      notifiedSince app app.UnloadFactory.2 = []) := by
  have hkeep := UnloadFactory_keeps_factory_field app
  refine ⟨?_, hkeep, ?_, ?_⟩
  · simp [MyApp.IsFactoryLoaded, hkeep]
  · intro hfac hvl hfl
    have hu := UnloadFactory_returns app hfac hvl hfl
    refine ⟨by rw [hu], ?_, by rw [hu]; rfl, ?_⟩
    · simpa [MyApp.IsFactoryLoaded, hkeep] using hfac
    · rw [hu, notifiedSince_append _ _ _ rfl]
      have happ : ∀ a b : List Notification,
          factoryUnloadedListeners (a ++ b)
            = factoryUnloadedListeners a ++ factoryUnloadedListeners b := by
        intro a b
        simp [factoryUnloadedListeners, List.filterMap_append]
      rw [happ, factoryUnloaded_of_unloaded]
      split
      · rw [factoryUnloaded_of_pluginUnloaded]
        rfl
      · rfl
  · intro hfac
    have hu := UnloadFactory_without_factory app hfac
    rw [hu]
    exact ⟨rfl, by simp [notifiedSince]⟩

/-- C10 at concrete states: with factory `1` and plugin `5` held, `UnloadFactory` returns
with the plugin gone, the listeners `11, 10` notified, and the factory still reported as
loaded; with nothing held it changes nothing. -/
theorem UnloadFactory_never_clears_factory_witness :
    demoApp.IsFactoryLoaded = true ∧
    demoApp.UnloadFactory.1 = Outcome.returned () ∧
    demoApp.UnloadFactory.2.IsFactoryLoaded = true ∧
    demoApp.UnloadFactory.2.IsVst3PluginLoaded = false ∧
    factoryUnloadedListeners (notifiedSince demoApp demoApp.UnloadFactory.2)
      = [⟨11, false, false⟩, ⟨10, false, false⟩] ∧
    demoAppNoFactory.UnloadFactory = (Outcome.returned (), demoAppNoFactory) := by
  obtain ⟨h1, h2, h3, h4⟩ :=
    (UnloadFactory_never_clears_factory demoApp).2.2.1 rfl (by decide) (by decide)
  have h5 := ((UnloadFactory_never_clears_factory demoAppNoFactory).2.2.2 rfl).1
  exact ⟨rfl, h1, h2, h3, h4.trans rfl, h5⟩

/-- Why C6 asks that no listener throws: when the second listener throws from
`OnVst3PluginLoaded`, the call returns `false` although the created plugin `6` has
replaced plugin `5`, and the third listener is never called. -/
theorem LoadVst3Plugin_when_listener_throws :
    (throwingApp.LoadVst3Plugin demoCreateByIndex 0).1 = some false ∧
    (throwingApp.LoadVst3Plugin demoCreateByIndex 0).2.GetPlugin = some 6 ∧
    pluginLoadedListeners
        (notifiedSince throwingApp (throwingApp.LoadVst3Plugin demoCreateByIndex 0).2)
      = [⟨20, false, false⟩, ⟨21, true, false⟩] := by
  decide

end Vst3HostDemo
